import Mathlib

/-!
Verification of the frame codec, status-frame decoder, value-mapping layer and
status-cache/waiter logic of the ioBroker midea-serialbridge adapter.

The JavaScript sources are shallowly embedded:
* bytes are `Nat` with explicit `% 256` where `Buffer` construction truncates;
* `Buffer` values become `List Nat`; `buffer[i]` becomes `List.getD i 0`
  (in-range at every use site, as in the source);
* the module-level mutable `sequenceCounter` of `src/lib/protocol.js` is
  threaded explicitly as a `Nat` state;
* fallible JavaScript code (`throw`) becomes `Except String`;
* the asynchronous status-cache/waiter machinery of
  `src/lib/midea-serial-bridge.js` is modelled as a step function over an
  explicit event trace (status pushes and wait failures).
-/

namespace MideaSerialBridge

/-! ## Frame codec (src/lib/protocol.js) -/

/-- Decoded frame, mirroring the object shapes returned by `decodeFrame`.
Fields that a given return object does not carry are `none` / defaulted. -/
structure DecodedFrame where
  frameLength : Nat
  error : Option String := none
  sequence : Option Nat := none
  command : Option Nat := none
  payload : List Nat := []
  payloadLength : Nat := 0
  type : Option String := none
deriving Repr, DecidableEq

/-- Embedding of `nextSequence` (protocol.js lines 5-11).  The module-level
`sequenceCounter` is passed in and the updated counter is returned together
with the value handed to the caller (the source returns the updated counter
itself). -/
def nextSequence (sequenceCounter : Nat) : Nat × Nat :=
  let c := (sequenceCounter + 1) % 256
  let c := if c = 0 then 1 else c
  (c, c)

/-- Embedding of `calculateChecksum` (protocol.js lines 37-43): running sum of
all bytes, reduced `& 0xff` at each step (the final `& 0xff` of the source is
redundant because the accumulator is already below 256). -/
def calculateChecksum (buffer : List Nat) : Nat :=
  buffer.foldl (fun sum value => (sum + value) % 256) 0

/-- Command definition as consumed by `encodeFrame`.  `payload` stands for the
byte list produced by `buildPayload(definition, params)` (protocol.js lines
13-35); quantifying over it covers every builder/params combination. -/
structure CommandDef where
  command : Nat
  payload : List Nat
deriving Repr, DecidableEq

/-- Result object of `encodeFrame`. -/
structure EncodedFrame where
  buffer : List Nat
  sequence : Nat
deriving Repr, DecidableEq

/-- Embedding of `encodeFrame` (protocol.js lines 45-58).  `Buffer.from`
truncates each entry to a byte, hence the `% 256`.  The second component is
the updated module-level sequence counter. -/
def encodeFrame (definition : CommandDef) (sequenceCounter : Nat) :
    EncodedFrame × Nat :=
  let next := nextSequence sequenceCounter
  let sequence := next.2
  let payload := definition.payload.map (fun b => b % 256)
  let frameWithoutChecksum :=
    0xaa :: 0x55 :: (sequence % 256) :: (definition.command % 256) ::
      (definition.payload.length % 256) :: payload
  let checksum := calculateChecksum frameWithoutChecksum
  ({ buffer := frameWithoutChecksum ++ [checksum], sequence := sequence }, next.1)

/-- Embedding of `decodeFrame` (protocol.js lines 60-144). -/
def decodeFrame (buffer : List Nat) : Option DecodedFrame :=
  if buffer.length = 0 then
    none
  else if buffer.getD 0 0 ≠ 0xaa then
    some { frameLength := 1, error := some "Invalid frame header" }
  else if buffer.length < 2 then
    none
  else if buffer.getD 1 0 ≠ 0x55 then
    -- unsolicited/push family
    let declaredLength := buffer.getD 1 0
    let frameLength := declaredLength + 1
    if buffer.length < frameLength then
      none
    else
      let frame := buffer.take frameLength
      let checksum := frame.getD (frame.length - 1) 0
      let sum := ((frame.drop 1).take (frame.length - 1 - 1)).foldl
        (fun s v => (s + v) % 256) 0
      let expectedChecksum := (0x100 - sum) % 256
      if checksum ≠ expectedChecksum then
        some { frameLength := frameLength, error := some "Checksum mismatch",
               type := some "status" }
      else
        some { frameLength := frameLength, command := some (frame.getD 2 0),
               payload := (frame.drop 2).take (frame.length - 1 - 2),
               payloadLength := frame.length - 3, sequence := none,
               type := some "status" }
  else if buffer.length < 6 then
    none
  else
    let sequence := buffer.getD 2 0
    let command := buffer.getD 3 0
    let payloadLength := buffer.getD 4 0
    let frameLength := payloadLength + 6
    if buffer.length < frameLength then
      none
    else
      let frame := buffer.take frameLength
      let checksum := frame.getD (frame.length - 1) 0
      let expectedChecksum := calculateChecksum (frame.take (frame.length - 1))
      if checksum ≠ expectedChecksum then
        some { frameLength := frameLength, error := some "Checksum mismatch" }
      else
        some { frameLength := frameLength, sequence := some sequence,
               command := some command,
               payload := (frame.drop 5).take payloadLength,
               type := some (if command &&& 0x80 ≠ 0 then "response" else "request"),
               payloadLength := payloadLength }

/-- Embedding of the `decode → dispatch → trim` loop of `_handleData`
(midea-serial-bridge.js lines 1015-1033): collect dispatched frames and the
remaining buffer.  Its well-founded definition is the termination argument. -/
def handleDataLoop (buffer : List Nat) : List DecodedFrame × List Nat :=
  match decodeFrame buffer with
  | none => ([], buffer)
  | some frame =>
    if hl : 0 < frame.frameLength ∧ frame.frameLength ≤ buffer.length then
      let rest := handleDataLoop (buffer.drop frame.frameLength)
      (frame :: rest.1, rest.2)
    else
      ([], buffer)
termination_by buffer.length
decreasing_by
  simp only [List.length_drop]
  omega

/-! ## Status frame decoder (src/lib/status-parser.js) -/

/-- Embedding of `decodeTemperature` (status-parser.js lines 3-27).  The
`byte == null` guard of the source never fires at the call sites (both
arguments are in-range byte reads), so the arguments are plain `Nat`s; the
`Number.isFinite` guard is vacuous for `Rat`.  `Math.round` rounds half
towards positive infinity, exactly Mathlib's `round` on `Rat`. -/
def decodeTemperature (byte : Nat) (decimalNibble : Nat) : Option Rat :=
  if byte = 0xff then none
  else
    let value : Rat := ((byte : Rat) - 50) / 2
    let value :=
      if decimalNibble ≠ 0xf then
        let decimal : Rat := (decimalNibble : Rat) / 10
        if 0 ≤ value then value + decimal else value - decimal
      else value
    if value < -50 ∨ value > 100 then none
    else some ((round (value * 10) : Int) / (10 : Rat))

/-- Embedding of `mapFanSpeed` (status-parser.js lines 29-51). -/
def mapFanSpeed : Option Nat → Option Nat
  | none => none
  | some value =>
    if value = 0 ∨ value = 101 ∨ value = 102 then some 0
    else if value ≤ 30 then some 1
    else if value ≤ 60 then some 2
    else if value ≤ 80 then some 3
    else some 4

/-- Named values extracted by `parse0xACStatus`.  Fields that the source sets
only conditionally are `Option`s (`none` = field absent from `values`). -/
structure StatusValues where
  power : Bool
  mode : Nat
  targetTemperature : Rat
  fanSpeed : Option Nat
  swingMode : Nat
  ecoMode : Bool
  turboMode : Bool
  sleepMode : Bool
  indoorTemperature : Option Rat
  outdoorTemperature : Option Rat
deriving Repr, DecidableEq

/-- Result object of `parse0xACStatus`. -/
structure ParsedStatus where
  command : Nat
  rawPayload : List Nat
  values : StatusValues
deriving Repr, DecidableEq

/-- Embedding of `parse0xACStatus` (status-parser.js lines 53-119).  JavaScript
array reads out of range yield `undefined`; every read below is guarded either
by `?? 0` in the source or by the `data.length >= 16` check, and `undefined`
coerces to 0 under `&`, so `List.getD _ 0` is faithful at every index. -/
def parse0xACStatus (payload : List Nat) : Option ParsedStatus :=
  if payload.length < 9 then none
  else
    let data := (payload.drop 7).take (payload.length - 1 - 7)
    if data.length < 16 then none
    else
      let messageType := data.getD 0 0
      if messageType ≠ 0xc0 then none
      else
        let flags := data.getD 1 0
        let modeAndTarget := data.getD 2 0
        let fanSpeedRaw := data.getD 3 0 &&& 0x7f
        let swingByte := data.getD 7 0
        let updownFan := swingByte &&& 0x0c == 0x0c
        let leftrightFan := swingByte &&& 0x03 == 0x03
        let featureByte8 := data.getD 8 0
        let featureByte9 := data.getD 9 0
        let featureByte10 := data.getD 10 0
        let turbo2 := featureByte8 &&& 0x20 == 0x20
        some
          { command := 0xac
            rawPayload := payload
            values :=
              { power := flags &&& 0x01 == 0x01
                mode := (modeAndTarget &&& 0xe0) >>> 5
                targetTemperature :=
                  16 + ((modeAndTarget &&& 0x0f : Nat) : Rat) +
                    (((modeAndTarget &&& 0x10) >>> 4 : Nat) : Rat) * (1 / 2)
                fanSpeed := mapFanSpeed (some fanSpeedRaw)
                swingMode :=
                  if updownFan && leftrightFan then 3
                  else if updownFan then 1
                  else if leftrightFan then 2
                  else 0
                ecoMode := featureByte9 &&& 0x10 == 0x10
                turboMode := (featureByte10 &&& 0x02 == 0x02) || turbo2
                sleepMode := featureByte10 &&& 0x01 == 0x01
                indoorTemperature :=
                  decodeTemperature (data.getD 11 0) (data.getD 15 0 &&& 0x0f)
                outdoorTemperature :=
                  decodeTemperature (data.getD 12 0) ((data.getD 15 0 &&& 0xf0) >>> 4) } }

/-- Embedding of `parseStatusFrame` (status-parser.js lines 121-126). -/
def parseStatusFrame (command : Nat) (payload : List Nat) : Option ParsedStatus :=
  if command = 0xac then parse0xACStatus payload else none

/-- Checked byte read: `.ok` exactly when the index is inside the array.  Used
by `parse0xACStatusChecked` to make every array access an explicit bounds
obligation. -/
def getByte (data : List Nat) (i : Nat) : Except String Nat :=
  match data.get? i with
  | some b => Except.ok b
  | none => Except.error "index out of bounds"

/-- Variant of `parse0xACStatus` in which every read of `data` is a checked
access that fails on an out-of-range index.  Proving it never fails shows the
parser stays inside the declared payload bounds on every byte pattern (the
formal counterpart of never throwing). -/
def parse0xACStatusChecked (payload : List Nat) :
    Except String (Option ParsedStatus) := do
  if payload.length < 9 then return none
  let data := (payload.drop 7).take (payload.length - 1 - 7)
  if data.length < 16 then return none
  let messageType ← getByte data 0
  if messageType ≠ 0xc0 then return none
  let flags ← getByte data 1
  let modeAndTarget ← getByte data 2
  let fanByte ← getByte data 3
  let swingByte ← getByte data 7
  let featureByte8 ← getByte data 8
  let featureByte9 ← getByte data 9
  let featureByte10 ← getByte data 10
  let indoorByte ← getByte data 11
  let outdoorByte ← getByte data 12
  let nibbleByte ← getByte data 15
  let fanSpeedRaw := fanByte &&& 0x7f
  let updownFan := swingByte &&& 0x0c == 0x0c
  let leftrightFan := swingByte &&& 0x03 == 0x03
  let turbo2 := featureByte8 &&& 0x20 == 0x20
  return some
    { command := 0xac
      rawPayload := payload
      values :=
        { power := flags &&& 0x01 == 0x01
          mode := (modeAndTarget &&& 0xe0) >>> 5
          targetTemperature :=
            16 + ((modeAndTarget &&& 0x0f : Nat) : Rat) +
              (((modeAndTarget &&& 0x10) >>> 4 : Nat) : Rat) * (1 / 2)
          fanSpeed := mapFanSpeed (some fanSpeedRaw)
          swingMode :=
            if updownFan && leftrightFan then 3
            else if updownFan then 1
            else if leftrightFan then 2
            else 0
          ecoMode := featureByte9 &&& 0x10 == 0x10
          turboMode := (featureByte10 &&& 0x02 == 0x02) || turbo2
          sleepMode := featureByte10 &&& 0x01 == 0x01
          indoorTemperature := decodeTemperature indoorByte (nibbleByte &&& 0x0f)
          outdoorTemperature :=
            decodeTemperature outdoorByte ((nibbleByte &&& 0xf0) >>> 4) } }

/-! ## Value mappings (src/lib/value-mappings.js) and the conversion layer
(src/lib/midea-serial-bridge.js lines 777-877).  The JavaScript lookup tables
become functions into `Option`. -/

/-- Table `LEGACY_MODE_NUMBERS` (value-mappings.js lines 3-10). -/
def LEGACY_MODE_NUMBERS : Int → Option String
  | 0 => some "auto"
  | 1 => some "cool"
  | 2 => some "dry"
  | 3 => some "heat"
  | 4 => some "fanonly"
  | 5 => some "customdry"
  | _ => none

/-- Table `MODE_VALUE_TO_NAME` (value-mappings.js lines 12-19). -/
def MODE_VALUE_TO_NAME : Int → Option String
  | 1 => some "auto"
  | 2 => some "cool"
  | 3 => some "dry"
  | 4 => some "heat"
  | 5 => some "fanonly"
  | 6 => some "customdry"
  | _ => none

/-- Table `MODE_ALIASES` (value-mappings.js lines 21-31). -/
def MODE_ALIASES : String → Option String
  | "auto" => some "auto"
  | "cool" => some "cool"
  | "dry" => some "dry"
  | "heat" => some "heat"
  | "fan" => some "fanonly"
  | "fanonly" => some "fanonly"
  | "fan only" => some "fanonly"
  | "customdry" => some "customdry"
  | "custom dry" => some "customdry"
  | _ => none

/-- Table `MODE_NAME_TO_VALUE` (value-mappings.js lines 33-40). -/
def MODE_NAME_TO_VALUE : String → Option Int
  | "auto" => some 1
  | "cool" => some 2
  | "dry" => some 3
  | "heat" => some 4
  | "fanonly" => some 5
  | "customdry" => some 6
  | _ => none

/-- Table `MODE_NAME_TO_LEGACY_VALUE` (value-mappings.js lines 42-49). -/
def MODE_NAME_TO_LEGACY_VALUE : String → Option Int
  | "auto" => some 0
  | "cool" => some 1
  | "dry" => some 2
  | "heat" => some 3
  | "fanonly" => some 4
  | "customdry" => some 5
  | _ => none

/-- Table `FAN_SPEED_ALIASES` (value-mappings.js lines 51-58). -/
def FAN_SPEED_ALIASES : String → Option String
  | "auto" => some "auto"
  | "silent" => some "silent"
  | "low" => some "low"
  | "medium" => some "medium"
  | "high" => some "high"
  | "fixed" => some "fixed"
  | _ => none

/-- Table `FAN_SPEED_NAME_TO_VALUE` (value-mappings.js lines 60-67). -/
def FAN_SPEED_NAME_TO_VALUE : String → Option Int
  | "auto" => some 102
  | "silent" => some 20
  | "low" => some 40
  | "medium" => some 60
  | "high" => some 80
  | "fixed" => some 101
  | _ => none

/-- Table `FAN_SPEED_VALUE_TO_NAME` (value-mappings.js lines 69-82). -/
def FAN_SPEED_VALUE_TO_NAME : Int → Option String
  | 0 => some "auto"
  | 1 => some "silent"
  | 2 => some "low"
  | 3 => some "medium"
  | 4 => some "high"
  | 5 => some "fixed"
  | 20 => some "silent"
  | 40 => some "low"
  | 60 => some "medium"
  | 80 => some "high"
  | 101 => some "fixed"
  | 102 => some "auto"
  | _ => none

/-- Swing flag pair used by `SWING_ALIASES` and `_convertSwingValue`. -/
structure SwingFlags where
  updownFan : Bool
  leftrightFan : Bool
deriving Repr, DecidableEq

/-- Table `SWING_ALIASES` (value-mappings.js lines 84-90). -/
def SWING_ALIASES : String → Option SwingFlags
  | "off" => some ⟨false, false⟩
  | "none" => some ⟨false, false⟩
  | "vertical" => some ⟨true, false⟩
  | "horizontal" => some ⟨false, true⟩
  | "both" => some ⟨true, true⟩
  | _ => none

/-- Table `SWING_NAME_TO_VALUE` (value-mappings.js lines 92-97). -/
def SWING_NAME_TO_VALUE : String → Option Int
  | "off" => some 0
  | "vertical" => some 1
  | "horizontal" => some 2
  | "both" => some 3
  | _ => none

/-- Table `SWING_VALUE_TO_NAME` (value-mappings.js lines 99-104). -/
def SWING_VALUE_TO_NAME : Int → Option String
  | 0 => some "off"
  | 1 => some "vertical"
  | 2 => some "horizontal"
  | 3 => some "both"
  | _ => none

/-- Embedding of `normalizeString` (value-mappings.js lines 106-111) on string
input: trim surrounding whitespace, then lower-case — implemented over the
character list so that it evaluates inside the kernel (`String(value)`
stringification of non-string inputs is handled at the converters below). -/
def normalizeString (value : String) : String :=
  String.mk
    (((value.data.dropWhile Char.isWhitespace).reverse.dropWhile
      Char.isWhitespace).reverse.map Char.toLower)

/-- Numeric value of a decimal digit character. -/
def decDigitVal (c : Char) : Nat := c.toNat - 48

/-- Value of an already validated decimal digit string. -/
def decDigitsVal (cs : List Char) : Nat :=
  cs.foldl (fun n c => n * 10 + decDigitVal c) 0

/-- Numeric value of a radix-16 digit character, if it is one. -/
def radixDigitVal (c : Char) : Option Nat :=
  let n := c.toNat
  if 48 ≤ n ∧ n ≤ 57 then some (n - 48)
  else if 97 ≤ n ∧ n ≤ 102 then some (n - 87)
  else if 65 ≤ n ∧ n ≤ 70 then some (n - 55)
  else none

/-- Parse a non-empty digit string in the given radix (the digit part of the
`0x`/`0o`/`0b` integer forms of the StringNumericLiteral grammar). -/
def parseRadixNat (radix : Nat) (cs : List Char) : Option Nat :=
  if cs = [] then none
  else
    cs.foldl
      (fun acc c =>
        acc.bind fun n =>
          (radixDigitVal c).bind fun d =>
            if d < radix then some (n * radix + d) else none)
      (some 0)

/-- Parse the mantissa of a decimal literal: `digits`, `digits.digits?` or
`.digits`. -/
def parseMantissa (cs : List Char) : Option Rat :=
  let ip := cs.takeWhile (fun c => c != '.')
  let rest := cs.dropWhile (fun c => c != '.')
  match rest with
  | [] =>
    if ip ≠ [] ∧ ip.all Char.isDigit then some ((decDigitsVal ip : Nat) : Rat)
    else none
  | _ :: fp =>
    if (ip ≠ [] ∨ fp ≠ []) ∧ ip.all Char.isDigit ∧ fp.all Char.isDigit then
      some (((decDigitsVal ip : Nat) : Rat) +
        ((decDigitsVal fp : Nat) : Rat) / ((10 : Rat) ^ fp.length))
    else none

/-- Parse an optionally signed non-empty digit string (the exponent part of a
decimal literal). -/
def parseSignedNatInt : List Char → Option Int
  | [] => none
  | '+' :: rest =>
    if rest ≠ [] ∧ rest.all Char.isDigit then
      some (Int.ofNat (decDigitsVal rest))
    else none
  | '-' :: rest =>
    if rest ≠ [] ∧ rest.all Char.isDigit then
      some (-Int.ofNat (decDigitsVal rest))
    else none
  | cs =>
    if cs.all Char.isDigit then some (Int.ofNat (decDigitsVal cs)) else none

/-- Apply a decimal exponent to a mantissa. -/
def applyExp (q : Rat) (e : Int) : Rat :=
  if 0 ≤ e then q * ((10 : Rat) ^ e.toNat) else q / ((10 : Rat) ^ (-e).toNat)

/-- Parse an unsigned decimal literal with an optional exponent. -/
def parseUnsignedDecimal (cs : List Char) : Option Rat :=
  let mant := cs.takeWhile (fun c => !(c == 'e' || c == 'E'))
  let rest := cs.dropWhile (fun c => !(c == 'e' || c == 'E'))
  match rest with
  | [] => parseMantissa mant
  | _ :: expPart =>
    (parseMantissa mant).bind fun m =>
      (parseSignedNatInt expPart).map fun e => applyExp m e

/-- Parse an optionally signed decimal literal. -/
def parseSignedDecimal : List Char → Option Rat
  | '+' :: rest => parseUnsignedDecimal rest
  | '-' :: rest => (parseUnsignedDecimal rest).map Neg.neg
  | cs => parseUnsignedDecimal cs

/-- Model of JavaScript `Number()` on an already-trimmed string, following the
ECMAScript StringNumericLiteral grammar: the empty string is 0; `0x`/`0b`/`0o`
prefixes introduce unsigned radix integers; otherwise an optionally signed
decimal literal with optional decimal point and exponent; anything else is
`NaN` (`none`).  Values are exact rationals — the IEEE-754 rounding of
extreme literals is a floating-point concern outside the model — and the
`Infinity` literal cannot reach the converters because `normalizeString`
lower-cases its input and `Number("infinity")` is `NaN` in JavaScript too. -/
def jsNumber (s : String) : Option Rat :=
  match s.data with
  | [] => some 0
  | '0' :: c :: rest =>
    if c == 'x' || c == 'X' then (parseRadixNat 16 rest).map fun n => (n : Rat)
    else if c == 'b' || c == 'B' then
      (parseRadixNat 2 rest).map fun n => (n : Rat)
    else if c == 'o' || c == 'O' then
      (parseRadixNat 8 rest).map fun n => (n : Rat)
    else parseSignedDecimal ('0' :: c :: rest)
  | cs => parseSignedDecimal cs

/-- Look up a JS number in an integer-keyed table: property access
stringifies the key, so only integer number values can hit the integer keys
of the tables (`table[2.5]` reads key "2.5", which is absent). -/
def ratKeyLookup (table : Int → Option String) (q : Rat) : Option String :=
  if q.den = 1 then table q.num else none

/-- JavaScript input value of a converter: a number (modelled as an exact
rational) or a string. -/
inductive JSValue
  | num (n : Rat)
  | str (s : String)
deriving Repr, DecidableEq

/-- Embedding of `_modeNumberToName` (midea-serial-bridge.js lines 420-426). -/
def modeNumberToName (value : Int) : Option String :=
  (MODE_VALUE_TO_NAME value).orElse fun _ => LEGACY_MODE_NUMBERS value

/-- Embedding of `_modeNameToNumeric` (midea-serial-bridge.js lines 428-439). -/
def modeNameToNumeric (name : String) : Option Int :=
  match MODE_NAME_TO_VALUE name with
  | some v => some v
  | none => MODE_NAME_TO_LEGACY_VALUE name

/-- Embedding of `_fanSpeedNumericToName` (midea-serial-bridge.js lines
534-539). -/
def fanSpeedNumericToName (value : Int) : Option String :=
  FAN_SPEED_VALUE_TO_NAME value

/-- Embedding of `_fanSpeedNameToNumeric` (midea-serial-bridge.js lines
541-546). -/
def fanSpeedNameToNumeric (name : String) : Option Int :=
  FAN_SPEED_NAME_TO_VALUE name

/-- Embedding of `_convertModeValue` (midea-serial-bridge.js lines 777-799).
For a finite number input not present in either numeric table, the source
falls through to the string path with `String(n)`: the aliases miss (their
keys are alphabetic) and `Number(String(n)) = n` misses `MODE_VALUE_TO_NAME`
again, so that path always throws; it is embedded directly as the error
case. -/
def convertModeValue : JSValue → Except String (Option String)
  | JSValue.num n =>
    match (ratKeyLookup MODE_VALUE_TO_NAME n).orElse
        fun _ => ratKeyLookup LEGACY_MODE_NUMBERS n with
    | some mapped => Except.ok (some mapped)
    | none => Except.error "Unsupported mode value"
  | JSValue.str s =>
    let normalized := normalizeString s
    if normalized = "" then Except.ok none
    else
      match MODE_ALIASES normalized with
      | some m => Except.ok (some m)
      | none =>
        match (jsNumber normalized).bind (ratKeyLookup MODE_VALUE_TO_NAME) with
        | some m => Except.ok (some m)
        | none => Except.error "Unsupported mode value"

/-- Outcome of `_convertFanSpeedValue`: a canonical name or a raw (possibly
fractional) percentage value. -/
inductive FanSetValue
  | name (s : String)
  | raw (q : Rat)
deriving Repr, DecidableEq

/-- Shared numeric branch of `_convertFanSpeedValue` (midea-serial-bridge.js
lines 802-818 and 829-846); `none` means the branch falls through to the
throw.  `Number.isInteger(value)` is `q.den = 1`; a missing 0..5 table entry
would fall through to the later checks, exactly as the source's inner `if
(mapped)` does. -/
def convertFanSpeedNumeric (q : Rat) : Option FanSetValue :=
  match (if 0 ≤ q ∧ q ≤ 5 ∧ q.den = 1 then FAN_SPEED_VALUE_TO_NAME q.num
    else none) with
  | some mapped => some (FanSetValue.name mapped)
  | none =>
    if 0 ≤ q ∧ q ≤ 100 then some (FanSetValue.raw q)
    else if q = 101 then some (FanSetValue.name "fixed")
    else if q > 100 then some (FanSetValue.name "auto")
    else none

/-- Embedding of `_convertFanSpeedValue` (midea-serial-bridge.js lines
801-849).  A negative number falls through the numeric branch to the string
path with `String(n)`, where aliases miss and the re-parsed number fails the
same branch, ending in the throw; it is embedded directly as the error
case. -/
def convertFanSpeedValue : JSValue → Except String (Option FanSetValue)
  | JSValue.num n =>
    match convertFanSpeedNumeric n with
    | some v => Except.ok (some v)
    | none => Except.error "Unsupported fan speed value"
  | JSValue.str s =>
    let normalized := normalizeString s
    if normalized = "" then Except.ok none
    else
      match FAN_SPEED_ALIASES normalized with
      | some m => Except.ok (some (FanSetValue.name m))
      | none =>
        match jsNumber normalized with
        | some numeric =>
          match convertFanSpeedNumeric numeric with
          | some v => Except.ok (some v)
          | none => Except.error "Unsupported fan speed value"
        | none => Except.error "Unsupported fan speed value"

/-- Embedding of `_convertSwingValue` (midea-serial-bridge.js lines 851-877);
the `switch` compares with `===`, so only the exact numbers 0..3 are
accepted. -/
def convertSwingValue : JSValue → Except String SwingFlags
  | JSValue.num q =>
    if q = 0 then Except.ok ⟨false, false⟩
    else if q = 1 then Except.ok ⟨true, false⟩
    else if q = 2 then Except.ok ⟨false, true⟩
    else if q = 3 then Except.ok ⟨true, true⟩
    else Except.error "Unsupported swing mode value"
  | JSValue.str s =>
    let normalized := normalizeString s
    if normalized = "" then Except.ok ⟨false, false⟩
    else
      match SWING_ALIASES normalized with
      | some flags => Except.ok flags
      | none => Except.error "Unsupported swing mode value"

/-! ## Status cache and waiter registry (src/lib/midea-serial-bridge.js,
connection-level revision, lines 905-1503).  The single-threaded asynchronous
behaviour is modelled as a step function consuming an explicit event trace:
a `push` event is an accepted status snapshot delivered to
`_handleStatusValues`; a `waitFail` event is the failure of the pending wait
(timeout, or rejection through `_rejectAllStatusWaiters`).  Cached values are
`Int` (the claims do not depend on the value type). -/

/-- Versioned status cache: the `statusVersion` counter plus the
`statusValues` map, as an association list `datapointId ↦ (value, version)`. -/
structure CacheState where
  statusVersion : Nat
  statusValues : List (String × Int × Nat)
deriving Repr, DecidableEq

/-- Lookup in the `statusValues` map (`Map.get`). -/
def lookupDP (dp : String) : List (String × Int × Nat) → Option (Int × Nat)
  | [] => none
  | (k, v, ver) :: rest => if k = dp then some (v, ver) else lookupDP dp rest

/-- Update in the `statusValues` map (`Map.set`). -/
def setDP (dp : String) (v : Int) (ver : Nat) :
    List (String × Int × Nat) → List (String × Int × Nat)
  | [] => [(dp, v, ver)]
  | (k, w, wver) :: rest =>
    if k = dp then (k, v, ver) :: rest else (k, w, wver) :: setDP dp v ver rest

/-- Embedding of `_handleStatusValues` (lines 1105-1124): an accepted snapshot
with at least one defined entry bumps the version once and records every entry
under the new version.  `values` lists only the defined entries (the source
filters `undefined` ones first). -/
def handleStatusValues (values : List (String × Int)) (s : CacheState) :
    CacheState :=
  if values = [] then s
  else
    let version := s.statusVersion + 1
    { statusVersion := version
      statusValues :=
        values.foldl (fun acc kv => setDP kv.1 kv.2 version acc) s.statusValues }

/-- Value a snapshot carries for a given datapoint, if any (object keys are
unique, so the first match is the entry). -/
def lookupPush (dp : String) : List (String × Int) → Option Int
  | [] => none
  | (k, v) :: rest => if k = dp then some v else lookupPush dp rest

/-- Event visible to a pending wait. -/
inductive StatusEvent
  | push (values : List (String × Int))
  | waitFail
deriving Repr, DecidableEq

/-- Resolution of a `query`/`set` promise in the model. -/
inductive QueryOutcome
  | value (v : Int)
  | failed (msg : String)
deriving Repr, DecidableEq

/-- Trace semantics of `query(datapointId)` (lines 1385-1409) composed with
`requestStatus` (lines 1411-1434) and `_waitForStatusUpdate` (lines
1332-1383): the any-update waiter resolves at the first accepted snapshot
whose version exceeds `baseline`, after which `query` reads the cache; on
`waitFail` the catch block falls back to the cached entry if present and
rethrows otherwise.  `none` in the first component means still pending. -/
def queryStep (dp : String) (baseline : Nat) :
    List StatusEvent → CacheState → Option QueryOutcome × CacheState
  | [], s => (none, s)
  | StatusEvent.push values :: rest, s =>
    let s1 := handleStatusValues values s
    if s1.statusVersion > baseline then
      match lookupDP dp s1.statusValues with
      | some entry => (some (QueryOutcome.value entry.1), s1)
      | none => (some (QueryOutcome.failed "Status value unavailable"), s1)
    else queryStep dp baseline rest s1
  | StatusEvent.waitFail :: rest, s =>
    match lookupDP dp s.statusValues with
    | some entry => (some (QueryOutcome.value entry.1), s)
    | none => (some (QueryOutcome.failed "Status update timeout"), s)

/-- Run of `query(datapointId)`: the baseline is the version counter captured
at call time (line 1391). -/
def queryRun (dp : String) (s : CacheState) (events : List StatusEvent) :
    Option QueryOutcome × CacheState :=
  queryStep dp s.statusVersion events s

/-- Trace semantics of the post-send phase of `set(datapointId, value)`
(lines 1455-1503) with `_waitForStatusValue` (lines 1272-1330): the
per-datapoint waiter resolves with the pushed value when a snapshot containing
the datapoint is recorded at a version above `baseline`
(`_notifyStatusWaiters`, lines 1144-1159); on `waitFail` the catch block
resolves with the cached entry if present, else with the requested value. -/
def setStep (dp : String) (requested : Int) (baseline : Nat) :
    List StatusEvent → CacheState → Option QueryOutcome × CacheState
  | [], s => (none, s)
  | StatusEvent.push values :: rest, s =>
    let s1 := handleStatusValues values s
    match lookupPush dp values with
    | some v =>
      if s1.statusVersion > baseline then (some (QueryOutcome.value v), s1)
      else setStep dp requested baseline rest s1
    | none => setStep dp requested baseline rest s1
  | StatusEvent.waitFail :: rest, s =>
    match lookupDP dp s.statusValues with
    | some entry => (some (QueryOutcome.value entry.1), s)
    | none => (some (QueryOutcome.value requested), s)

/-- Run of the wait phase of `set`: the baseline is the version captured just
before the send (line 1462). -/
def setRun (dp : String) (requested : Int) (s : CacheState)
    (events : List StatusEvent) : Option QueryOutcome × CacheState :=
  setStep dp requested s.statusVersion events s

/-! ## Teardown (src/lib/midea-serial-bridge.js lines 964-1002 and 1177-1199).
Each pending request promise and each registered waiter is modelled by its
settled flag (`true` = already settled); settling is guarded, so delivering a
rejection to a settled slot is a no-op, exactly like rejecting a settled
promise or a waiter whose `settled` guard is set. -/

/-- Connection-level tables torn down by `_rejectAllPending`. -/
structure TeardownState where
  pending : List Bool
  statusWaiters : List (String × List Bool)
  statusUpdateWaiters : List Bool
deriving Repr, DecidableEq

/-- Deliver one rejection to every slot of a list, counting the deliveries
that actually settle something (the guard makes settled slots no-ops). -/
def rejectSlots : List Bool → Nat
  | [] => 0
  | settled :: rest => (if settled then 0 else 1) + rejectSlots rest

/-- Embedding of `_rejectAllStatusWaiters` (lines 1177-1199): reject every
waiter of every datapoint, clear the map, reject every status-update waiter,
clear the set.  Returns the new state and the number of delivered
rejections. -/
def rejectAllStatusWaiters (s : TeardownState) : TeardownState × Nat :=
  let delivered := s.statusWaiters.foldl (fun acc kv => acc + rejectSlots kv.2) 0
  let delivered2 := rejectSlots s.statusUpdateWaiters
  ({ s with statusWaiters := [], statusUpdateWaiters := [] },
    delivered + delivered2)

/-- Embedding of `_rejectAllPending` (lines 980-1002): reject every pending
request, clear the table, then tear down the waiter registries.  This is the
common path of `disconnect()` and of the socket `error`/`close` handlers. -/
def rejectAllPending (s : TeardownState) : TeardownState × Nat :=
  let deliveredPending := rejectSlots s.pending
  let s1 := { s with pending := ([] : List Bool) }
  let res := rejectAllStatusWaiters s1
  (res.1, deliveredPending + res.2)

/-- Teardown entry point (`disconnect()`, lines 964-978, after clearing the
reconnect timer and destroying the socket). -/
def disconnectModel (s : TeardownState) : TeardownState × Nat :=
  rejectAllPending s

/-! ## Helper lemmas -/

/-- Every `some` result of `decodeFrame` carries a `frameLength` between 1 and
the buffer length. -/
lemma decodeFrame_bounds (buffer : List Nat) (r : DecodedFrame)
    (h : decodeFrame buffer = some r) :
    1 ≤ r.frameLength ∧ r.frameLength ≤ buffer.length := by
  unfold decodeFrame at h
  simp only [] at h
  split_ifs at h with h0 h1 h2 h3 h4 h5 h6 h7 <;>
    first
      | (injection h with h
         subst h
         simp only [DecodedFrame.frameLength]
         omega)
      | cases h

/-- The decode/trim loop never leaves more bytes than it was given. -/
lemma handleDataLoop_remaining_le (buffer : List Nat) :
    (handleDataLoop buffer).2.length ≤ buffer.length := by
  induction buffer using handleDataLoop.induct with
  | case1 buffer hdec => simp [handleDataLoop, hdec]
  | case2 buffer frame hdec hl ih =>
    rw [handleDataLoop, hdec]
    simp only [dif_pos hl]
    simp only [List.length_drop] at ih
    omega
  | case3 buffer frame hdec hl =>
    rw [handleDataLoop, hdec]
    simp [dif_neg hl]

/-- Folding the byte-wise mod-256 accumulation equals the plain sum mod 256. -/
lemma foldl_mod256 (l : List Nat) (a : Nat) :
    l.foldl (fun s v => (s + v) % 256) (a % 256) = (a + l.sum) % 256 := by
  induction l generalizing a with
  | nil => simp
  | cons x xs ih =>
    simp only [List.foldl_cons, List.sum_cons]
    rw [Nat.mod_add_mod, ih (a + x), Nat.add_assoc]

/-- The checksum is the byte sum reduced mod 256. -/
lemma calculateChecksum_eq_sum (l : List Nat) :
    calculateChecksum l = l.sum % 256 := by
  have h := foldl_mod256 l 0
  simpa [calculateChecksum] using h

/-- Replacing the element after a known first segment. -/
lemma set_append_cons {α : Type} (l1 : List α) (b v : α) (l2 : List α) :
    (l1 ++ b :: l2).set l1.length v = l1 ++ v :: l2 := by
  induction l1 with
  | nil => rfl
  | cons x xs ih => simp [List.set, ih]

/-- Setting at an index known to be the length of the first appended block,
with the cons element replaced. -/
lemma set_append_cons_at {α : Type} (A : List α) (b v : α) (B tail : List α)
    (n : Nat) (hn : n = A.length) :
    ((A ++ b :: B) ++ tail).set n v = (A ++ v :: B) ++ tail := by
  subst hn
  induction A with
  | nil => rfl
  | cons x xs ih =>
    simp only [List.cons_append, List.length_cons, List.set_cons_succ]
    rw [ih]

/-- Setting inside the second appended block. -/
lemma set_append_offset {α : Type} (l1 l2 : List α) (n m : Nat) (v : α)
    (h : n = l1.length + m) :
    (l1 ++ l2).set n v = l1 ++ l2.set m v := by
  subst h
  induction l1 with
  | nil => simp
  | cons x xs ih =>
    simp only [List.cons_append, List.length_cons, Nat.succ_add, List.set_cons_succ]
    rw [ih]

/-- Evaluation of `decodeFrame` on a command/response-family frame laid out as
`0xAA 0x55 seq cmd len payload checksum`: the checksum is compared against the
plain sum of the preceding bytes, and on success the payload bytes are
returned unchanged. -/
lemma decodeFrame_command_frame (s c : Nat) (q : List Nat) (k : Nat) :
    decodeFrame ([0xaa, 0x55, s, c, q.length] ++ (q ++ [k])) =
      if k ≠ calculateChecksum ([0xaa, 0x55, s, c, q.length] ++ q) then
        some { frameLength := q.length + 6, error := some "Checksum mismatch" }
      else
        some { frameLength := q.length + 6, sequence := some s, command := some c,
               payload := q,
               type := some (if c &&& 0x80 ≠ 0 then "response" else "request"),
               payloadLength := q.length } := by
  have h5 : ([0xaa, 0x55, s, c, q.length] : List Nat).length = 5 := rfl
  have hlen : (([0xaa, 0x55, s, c, q.length] : List Nat) ++ (q ++ [k])).length
      = q.length + 6 := by
    simp only [List.length_append, List.length_cons, List.length_nil]
    omega
  have g0 : (([0xaa, 0x55, s, c, q.length] : List Nat) ++ (q ++ [k])).getD 0 0 = 0xaa := by
    rw [List.getD_append _ _ _ _ (by simp)]; rfl
  have g1 : (([0xaa, 0x55, s, c, q.length] : List Nat) ++ (q ++ [k])).getD 1 0 = 0x55 := by
    rw [List.getD_append _ _ _ _ (by simp)]; rfl
  have g2 : (([0xaa, 0x55, s, c, q.length] : List Nat) ++ (q ++ [k])).getD 2 0 = s := by
    rw [List.getD_append _ _ _ _ (by simp)]; rfl
  have g3 : (([0xaa, 0x55, s, c, q.length] : List Nat) ++ (q ++ [k])).getD 3 0 = c := by
    rw [List.getD_append _ _ _ _ (by simp)]; rfl
  have g4 : (([0xaa, 0x55, s, c, q.length] : List Nat) ++ (q ++ [k])).getD 4 0
      = q.length := by
    rw [List.getD_append _ _ _ _ (by simp)]; rfl
  have gtake : (([0xaa, 0x55, s, c, q.length] : List Nat) ++ (q ++ [k])).take
      (q.length + 6) = [0xaa, 0x55, s, c, q.length] ++ (q ++ [k]) := by
    rw [← hlen, List.take_length]
  have gk : (([0xaa, 0x55, s, c, q.length] : List Nat) ++ (q ++ [k])).getD
      (q.length + 5) 0 = k := by
    rw [List.getD_append_right _ _ _ _ (by omega)]
    have : q.length + 5 - 5 = q.length := by omega
    rw [h5, this, List.getD_append_right _ _ _ _ (by omega)]
    simp
  have gchk : (([0xaa, 0x55, s, c, q.length] : List Nat) ++ (q ++ [k])).take
      (q.length + 5) = [0xaa, 0x55, s, c, q.length] ++ q := by
    have h55 : q.length + 5 = ([0xaa, 0x55, s, c, q.length] : List Nat).length
        + q.length := by rw [h5]; omega
    rw [h55, List.take_append, List.take_left' rfl]
  have gdrop : (([0xaa, 0x55, s, c, q.length] : List Nat) ++ (q ++ [k])).drop 5
      = q ++ [k] := by
    rw [show (5 : Nat) = ([0xaa, 0x55, s, c, q.length] : List Nat).length from rfl,
      List.drop_left]
  unfold decodeFrame
  simp only []
  rw [hlen, g0, g1, g4]
  rw [if_neg (by omega), if_neg (by simp), if_neg (by omega), if_neg (by simp),
    if_neg (by omega), if_neg (by omega)]
  rw [gtake, hlen]
  have e1 : q.length + 6 - 1 = q.length + 5 := by omega
  rw [e1, gk, gchk, g2, g3, gdrop]
  have e2 : (q ++ [k]).take q.length = q := List.take_left' rfl
  rw [e2]

/-- Explicit shape of the buffer built by `encodeFrame` for a byte-valued
definition. -/
lemma encodeFrame_buffer_eq (d : CommandDef) (st : Nat)
    (hplen : d.payload.length ≤ 255) (hcmd : d.command ≤ 255)
    (hbytes : ∀ b ∈ d.payload, b ≤ 255) :
    (encodeFrame d st).1.buffer =
      ([0xaa, 0x55, (nextSequence st).2 % 256, d.command, d.payload.length] :
        List Nat) ++ (d.payload ++
        [calculateChecksum ([0xaa, 0x55, (nextSequence st).2 % 256, d.command,
          d.payload.length] ++ d.payload)]) := by
  have hmap : d.payload.map (fun b => b % 256) = d.payload := by
    conv_rhs => rw [← List.map_id d.payload]
    exact List.map_congr_left fun a ha => Nat.mod_eq_of_lt (by
      have := hbytes a ha; omega)
  have hl2 : d.payload.length % 256 = d.payload.length :=
    Nat.mod_eq_of_lt (by omega)
  have hc2 : d.command % 256 = d.command := Nat.mod_eq_of_lt (by omega)
  simp only [encodeFrame, hmap, hl2, hc2, List.cons_append, List.nil_append,
    List.append_assoc]

/-- C1: for every command definition whose built payload is at most 255 bytes
(byte-valued, as `Buffer` contents are, with a byte-valued command opcode),
decoding the encoded frame yields a non-error frame that recovers the command
and exactly the encoded payload bytes. -/
theorem decode_encode_roundtrip (d : CommandDef) (st : Nat)
    (hplen : d.payload.length ≤ 255) (hcmd : d.command ≤ 255)
    (hbytes : ∀ b ∈ d.payload, b ≤ 255) :
    ∃ frame, decodeFrame (encodeFrame d st).1.buffer = some frame ∧
      frame.error = none ∧ frame.command = some d.command ∧
      frame.payload = d.payload := by
  rw [encodeFrame_buffer_eq d st hplen hcmd hbytes, decodeFrame_command_frame]
  rw [if_neg (by simp)]
  exact ⟨_, rfl, rfl, rfl, rfl⟩

/-- Witness for C1 at the power-query definition (`command 0x81`, built
payload `[0x01]`) from the fresh module state. -/
theorem decode_encode_roundtrip_witness :
    ∃ frame, decodeFrame (encodeFrame ⟨0x81, [0x01]⟩ 0).1.buffer = some frame ∧
      frame.error = none ∧ frame.command = some 0x81 ∧
      frame.payload = [0x01] :=
  decode_encode_roundtrip ⟨0x81, [0x01]⟩ 0 (by decide) (by decide)
    (by intro b hb; simp at hb; omega)

/-- C9: replacing any single payload byte of an encoded frame with a
different byte value makes `decodeFrame` return a checksum-error descriptor
instead of a valid frame. -/
theorem flip_payload_byte_checksum_error (d : CommandDef) (st : Nat)
    (i : Nat) (v : Nat)
    (hplen : d.payload.length ≤ 255) (hcmd : d.command ≤ 255)
    (hbytes : ∀ b ∈ d.payload, b ≤ 255)
    (hi : i < d.payload.length) (hv : v ≤ 255)
    (hne : v ≠ d.payload.get ⟨i, hi⟩) :
    ∃ r, decodeFrame ((encodeFrame d st).1.buffer.set (5 + i) v) = some r ∧
      r.error = some "Checksum mismatch" := by
  have hb : d.payload.get ⟨i, hi⟩ ≤ 255 := hbytes _ (List.get_mem _ _ hi)
  have hsplit : d.payload.take i ++ d.payload.get ⟨i, hi⟩ ::
      d.payload.drop (i + 1) = d.payload := by
    rw [List.get_eq_getElem, ← List.drop_eq_getElem_cons hi,
      List.take_append_drop]
  have hlen1 : (d.payload.take i).length = i := by
    rw [List.length_take]; omega
  rw [encodeFrame_buffer_eq d st hplen hcmd hbytes]
  generalize hs : (nextSequence st).2 % 256 = s
  generalize hk : calculateChecksum ([0xaa, 0x55, s, d.command,
    d.payload.length] ++ d.payload) = k
  have hqlen : (d.payload.take i ++ v :: d.payload.drop (i + 1)).length
      = d.payload.length := by
    simp only [List.length_append, List.length_cons, List.length_drop, hlen1]
    omega
  have hsum_p : d.payload.sum = (d.payload.take i).sum +
      d.payload.get ⟨i, hi⟩ + (d.payload.drop (i + 1)).sum := by
    conv_lhs => rw [← hsplit]
    simp only [List.sum_append, List.sum_cons]
    omega
  have hsplit2 : d.payload ++ [k] = (d.payload.take i ++
      d.payload.get ⟨i, hi⟩ :: d.payload.drop (i + 1)) ++ [k] := by
    rw [hsplit]
  have hset : (([0xaa, 0x55, s, d.command, d.payload.length] : List Nat) ++
      (d.payload ++ [k])).set (5 + i) v =
      ([0xaa, 0x55, s, d.command, d.payload.length] : List Nat) ++
      ((d.payload.take i ++ v :: d.payload.drop (i + 1)) ++ [k]) := by
    rw [hsplit2]
    rw [set_append_offset _ _ _ i _ (by simp)]
    rw [set_append_cons_at _ _ _ _ _ i hlen1.symm]
  rw [hset]
  rw [show d.payload.length =
    (d.payload.take i ++ v :: d.payload.drop (i + 1)).length from hqlen.symm]
  rw [decodeFrame_command_frame]
  have hcond : k ≠ calculateChecksum (([0xaa, 0x55, s, d.command,
      (d.payload.take i ++ v :: d.payload.drop (i + 1)).length] : List Nat) ++
      (d.payload.take i ++ v :: d.payload.drop (i + 1))) := by
    rw [← hk, calculateChecksum_eq_sum, calculateChecksum_eq_sum, hqlen]
    simp only [List.sum_append, List.sum_cons, List.sum_nil]
    rw [hsum_p]
    intro heq
    exact hne (by omega)
  rw [if_pos hcond]
  exact ⟨_, rfl, rfl⟩

/-- Witness for C9: flipping the single payload byte of the encoded power
query (payload `[0x01]`, position 0) to `0x02`. -/
theorem flip_payload_byte_checksum_error_witness :
    ∃ r, decodeFrame ((encodeFrame ⟨0x81, [0x01]⟩ 0).1.buffer.set (5 + 0) 2)
        = some r ∧ r.error = some "Checksum mismatch" :=
  flip_payload_byte_checksum_error ⟨0x81, [0x01]⟩ 0 0 2 (by decide) (by decide)
    (by intro b hb; simp at hb; omega) (by decide) (by decide) (by decide)

/-- C2 (amended): for every buffer that starts `0xAA`, whose second byte
differs from `0x55` (read as declared length), that holds at least
`declaredLength + 1` bytes, and whose checksum byte (at index
`declaredLength`) equals `(256 - sum of the interior bytes) mod 256`,
`decodeFrame` returns a status frame with
`frameLength = declaredLength + 1`, `command` = byte at index 2,
`sequence` undefined — and a payload running from index 2 (the command byte)
up to the byte before the checksum: the command byte is part of the payload
(`payloadLength = frameLength - 3`). -/
theorem decodeFrame_status_frame (buffer : List Nat)
    (h0 : buffer.getD 0 0 = 0xaa)
    (h1 : buffer.getD 1 0 ≠ 0x55)
    (hlen : buffer.getD 1 0 + 1 ≤ buffer.length)
    (hchk : buffer.getD (buffer.getD 1 0) 0 =
      (0x100 - ((buffer.drop 1).take (buffer.getD 1 0 - 1)).sum % 256) % 256) :
    decodeFrame buffer = some
      { frameLength := buffer.getD 1 0 + 1,
        command := some (buffer.getD 2 0),
        sequence := none,
        payload := (buffer.drop 2).take (buffer.getD 1 0 - 2),
        payloadLength := buffer.getD 1 0 + 1 - 3,
        type := some "status" } := by
  have hd2 : 2 ≤ buffer.getD 1 0 := by
    by_contra hcon
    push_neg at hcon
    have hcases : buffer.getD 1 0 = 0 ∨ buffer.getD 1 0 = 1 := by omega
    rcases hcases with hz | ho
    · rw [hz] at hchk
      simp only [Nat.zero_sub, List.take_zero, List.sum_nil, Nat.zero_mod,
        Nat.sub_zero] at hchk
      rw [h0] at hchk
      norm_num at hchk
    · rw [ho] at hchk
      simp only [Nat.sub_self, List.take_zero, List.sum_nil, Nat.zero_mod,
        Nat.sub_zero] at hchk
      omega
  have hfl : (buffer.take (buffer.getD 1 0 + 1)).length
      = buffer.getD 1 0 + 1 := by
    rw [List.length_take]; omega
  have hgd : (buffer.take (buffer.getD 1 0 + 1)).getD (buffer.getD 1 0) 0
      = buffer.getD (buffer.getD 1 0) 0 := by
    rw [List.getD_eq_getElem?_getD, List.getElem?_take, if_pos (by omega),
      ← List.getD_eq_getElem?_getD]
  have hgc : (buffer.take (buffer.getD 1 0 + 1)).getD 2 0
      = buffer.getD 2 0 := by
    rw [List.getD_eq_getElem?_getD, List.getElem?_take, if_pos (by omega),
      ← List.getD_eq_getElem?_getD]
  have hint2 : ((buffer.take (buffer.getD 1 0 + 1)).drop 1).take
      (buffer.getD 1 0 - 1) = (buffer.drop 1).take (buffer.getD 1 0 - 1) := by
    rw [List.drop_take, List.take_take]
    congr 1
    omega
  have hpay2 : ((buffer.take (buffer.getD 1 0 + 1)).drop 2).take
      (buffer.getD 1 0 - 2) = (buffer.drop 2).take (buffer.getD 1 0 - 2) := by
    rw [List.drop_take, List.take_take]
    congr 1
    omega
  unfold decodeFrame
  simp only []
  rw [h0]
  rw [if_neg (by omega), if_neg (by simp), if_neg (by omega), if_pos h1,
    if_neg (by omega)]
  rw [hfl]
  have e1 : buffer.getD 1 0 + 1 - 1 = buffer.getD 1 0 := by omega
  rw [e1, hgd, hint2]
  rw [show List.foldl (fun s v => (s + v) % 256) 0
      ((buffer.drop 1).take (buffer.getD 1 0 - 1)) =
      ((buffer.drop 1).take (buffer.getD 1 0 - 1)).sum % 256 from
    calculateChecksum_eq_sum _]
  rw [← hchk]
  rw [if_neg (by simp)]
  rw [hgc, hpay2]

/-- Witness for C2 (amended) at the concrete push frame
`AA 04 01 02 F9` (declared length 4, valid checksum `249 = (256 - 7) % 256`). -/
theorem decodeFrame_status_frame_witness :
    decodeFrame [0xaa, 0x04, 0x01, 0x02, 0xf9] = some
      { frameLength := 5, command := some 0x01, sequence := none,
        payload := [0x01, 0x02], payloadLength := 2, type := some "status" } :=
  decodeFrame_status_frame [0xaa, 0x04, 0x01, 0x02, 0xf9] (by decide)
    (by decide) (by decide) (by decide)

/-- Counterexample to C2 as stated: the push frame `AA 04 01 02 F9` meets all
of the claim premises (header `0xAA`, second byte `4 ≠ 0x55`, length
`5 = 4 + 1`, checksum `0xF9 = (256 - (4 + 1 + 2)) % 256`), but the decoded
payload is `[01, 02]` — `frame.slice(2, length - 1)` includes the command byte
at index 2 — and not the bytes strictly between the command byte and the
checksum byte, which would be `[02]`. -/
theorem status_payload_not_strictly_between :
    (decodeFrame [0xaa, 0x04, 0x01, 0x02, 0xf9]).map DecodedFrame.payload
      = some [0x01, 0x02] ∧
    ¬ (decodeFrame [0xaa, 0x04, 0x01, 0x02, 0xf9]).map DecodedFrame.payload
      = some [0x02] ∧
    (0xf9 : Nat) = (0x100 - ([0x04, 0x01, 0x02] : List Nat).sum % 256) % 256 := by
  decide

/-- Checked byte reads succeed inside the array. -/
lemma getByte_ok (data : List Nat) (i : Nat) (h : i < data.length) :
    getByte data i = Except.ok (data.getD i 0) := by
  have h2 : data.get? i = some (data.getD i 0) := by
    rw [List.get?_eq_getElem?, List.getD_eq_getElem?_getD,
      List.getElem?_eq_getElem h]
    rfl
  rw [getByte, h2]

/-- Undersized payloads decode to `none`. -/
lemma parse0xACStatus_short_none (payload : List Nat)
    (h : payload.length < 16) : parseStatusFrame 0xac payload = none := by
  unfold parseStatusFrame
  rw [if_pos rfl]
  unfold parse0xACStatus
  by_cases h9 : payload.length < 9
  · rw [if_pos h9]
  · rw [if_neg h9]
    simp only []
    rw [if_pos (by rw [List.length_take, List.length_drop]; omega)]

/-- The bounds-checked parser never fails and agrees with the parser. -/
lemma parse0xACStatusChecked_eq (payload : List Nat) :
    parse0xACStatusChecked payload = Except.ok (parse0xACStatus payload) := by
  by_cases h9 : payload.length < 9
  · unfold parse0xACStatusChecked parse0xACStatus
    rw [if_pos h9, if_pos h9]
    rfl
  · by_cases h16 : ((payload.drop 7).take (payload.length - 1 - 7)).length < 16
    · unfold parse0xACStatusChecked parse0xACStatus
      rw [if_neg h9, if_neg h9]
      simp only []
      rw [if_pos h16, if_pos h16]
      rfl
    · have hD : 16 ≤ ((payload.drop 7).take (payload.length - 1 - 7)).length :=
        le_of_not_lt h16
      have g0 := getByte_ok ((payload.drop 7).take (payload.length - 1 - 7)) 0
        (by omega)
      have g1 := getByte_ok ((payload.drop 7).take (payload.length - 1 - 7)) 1
        (by omega)
      have g2 := getByte_ok ((payload.drop 7).take (payload.length - 1 - 7)) 2
        (by omega)
      have g3 := getByte_ok ((payload.drop 7).take (payload.length - 1 - 7)) 3
        (by omega)
      have g7 := getByte_ok ((payload.drop 7).take (payload.length - 1 - 7)) 7
        (by omega)
      have g8 := getByte_ok ((payload.drop 7).take (payload.length - 1 - 7)) 8
        (by omega)
      have g9 := getByte_ok ((payload.drop 7).take (payload.length - 1 - 7)) 9
        (by omega)
      have g10 := getByte_ok ((payload.drop 7).take (payload.length - 1 - 7)) 10
        (by omega)
      have g11 := getByte_ok ((payload.drop 7).take (payload.length - 1 - 7)) 11
        (by omega)
      have g12 := getByte_ok ((payload.drop 7).take (payload.length - 1 - 7)) 12
        (by omega)
      have g15 := getByte_ok ((payload.drop 7).take (payload.length - 1 - 7)) 15
        (by omega)
      unfold parse0xACStatusChecked parse0xACStatus
      rw [if_neg h9, if_neg h9]
      simp only []
      rw [if_neg h16, if_neg h16]
      rw [g0]
      simp only [bind, Except.bind]
      by_cases hmt : ((payload.drop 7).take (payload.length - 1 - 7)).getD 0 0
          ≠ 0xc0
      · rw [if_pos hmt, if_pos hmt]
        rfl
      · rw [if_neg hmt, if_neg hmt]
        rw [g1, g2, g3, g7, g8, g9, g10, g11, g12, g15]
        simp only [bind, Except.bind, Functor.map, Except.map]
        rfl

/-- C4: every payload shorter than the 16-byte minimum status length decodes
to `null`, and the parser never reads outside the declared payload on any byte
pattern — its bounds-checked variant always returns `.ok` and agrees with it
(the formal counterpart of never throwing). -/
theorem parseStatusFrame_short_none_and_safe (payload : List Nat) :
    (payload.length < 16 → parseStatusFrame 0xac payload = none) ∧
    parse0xACStatusChecked payload = Except.ok (parse0xACStatus payload) :=
  ⟨fun h => parse0xACStatus_short_none payload h,
    parse0xACStatusChecked_eq payload⟩

/-- Witness for C4 at the one-byte payload `[0x00]`. -/
theorem parseStatusFrame_short_none_and_safe_witness :
    parseStatusFrame 0xac [0x00] = none :=
  (parseStatusFrame_short_none_and_safe [0x00]).1 (by decide)

/-- C10: `decodeFrame` is total (a Lean function over all byte lists), and
every non-`none` result — valid frame or error descriptor — has
`1 ≤ frameLength ≤ buffer.length`; hence the `_handleData` decode/trim loop
consumes at least one byte per dispatched result, never consumes beyond the
buffer, and terminates on every chunk (its model `handleDataLoop` is
well-founded on the buffer length and the remaining buffer never grows). -/
theorem decodeFrame_total_and_consuming (buffer : List Nat) :
    (∀ r, decodeFrame buffer = some r →
      1 ≤ r.frameLength ∧ r.frameLength ≤ buffer.length) ∧
    (handleDataLoop buffer).2.length ≤ buffer.length :=
  ⟨fun r h => decodeFrame_bounds buffer r h, handleDataLoop_remaining_le buffer⟩

/-- Witness for C10 at the concrete buffer `[0x00]`, which decodes to the
header-error descriptor of frame length 1. -/
theorem decodeFrame_total_and_consuming_witness :
    1 ≤ ({ frameLength := 1, error := some "Invalid frame header" } :
      DecodedFrame).frameLength ∧
    ({ frameLength := 1, error := some "Invalid frame header" } :
      DecodedFrame).frameLength ≤ [(0 : Nat)].length :=
  (decodeFrame_total_and_consuming [0]).1 _ (by decide)

/-- C6 (amended): every frame produced by `encodeFrame` carries a sequence
number in 1..255 and successive calls cycle 1..255 skipping 0 — but the
counter is the module-level `sequenceCounter` of protocol.js, threaded through
every call process-wide, not owned per connection instance. -/
theorem encodeFrame_sequence_cycles (d : CommandDef) (c : Nat) (hc : c ≤ 255) :
    1 ≤ (encodeFrame d c).1.sequence ∧ (encodeFrame d c).1.sequence ≤ 255 ∧
    (encodeFrame d c).1.sequence = (if c = 255 then 1 else c + 1) ∧
    (encodeFrame d c).2 = (encodeFrame d c).1.sequence := by
  simp only [encodeFrame, nextSequence]
  split_ifs <;> simp_all <;> omega

/-- Witness for C6 at the wrap-around point `c = 255`. -/
theorem encodeFrame_sequence_cycles_witness :
    1 ≤ (encodeFrame ⟨0x41, []⟩ 255).1.sequence ∧
    (encodeFrame ⟨0x41, []⟩ 255).1.sequence ≤ 255 ∧
    (encodeFrame ⟨0x41, []⟩ 255).1.sequence = (if 255 = 255 then 1 else 255 + 1) ∧
    (encodeFrame ⟨0x41, []⟩ 255).2 = (encodeFrame ⟨0x41, []⟩ 255).1.sequence :=
  encodeFrame_sequence_cycles ⟨0x41, []⟩ 255 (by decide)

/-- Counterexample to C6 as stated: the sequence counter is a single
module-level variable in protocol.js (line 3), so it is shared by every
connection instance in the process.  Starting from the fresh module state, the
first `encodeFrame` call (instance A) gets sequence 1 and the very next call —
even when made by a different bridge instance B — gets sequence 2, whereas
per-instance ownership would give B's first frame sequence 1. -/
theorem sequence_counter_shared_counterexample :
    (encodeFrame ⟨0x81, [0x01]⟩ 0).1.sequence = 1 ∧
    (encodeFrame ⟨0x81, [0x01]⟩ ((encodeFrame ⟨0x81, [0x01]⟩ 0).2)).1.sequence = 2 ∧
    (2 : Nat) ≠ 1 := by decide

/-! ## Lemmas about the cache and teardown models -/

/-- A snapshot with at least one entry bumps the version by exactly one. -/
lemma handleStatusValues_version (values : List (String × Int)) (s : CacheState)
    (h : values ≠ []) :
    (handleStatusValues values s).statusVersion = s.statusVersion + 1 := by
  simp [handleStatusValues, h]

/-- Setting a different key preserves a lookup. -/
lemma lookupDP_setDP_ne (dp k : String) (hne : k ≠ dp) (v : Int) (ver : Nat)
    (l : List (String × Int × Nat)) :
    lookupDP dp (setDP k v ver l) = lookupDP dp l := by
  induction l with
  | nil => simp [setDP, lookupDP, hne]
  | cons kv rest ih =>
    by_cases hk : kv.1 = k
    · simp [setDP, lookupDP, hk, hne, ih]
    · simp only [setDP, lookupDP]
      rw [if_neg (by exact hk)]
      by_cases hd : kv.1 = dp
      · simp [lookupDP, hd]
      · simp [lookupDP, hd, ih]

/-- Recording a snapshot that does not carry a datapoint leaves that
datapoint's cache entry unchanged. -/
lemma lookup_foldl_setDP (dp : String) (values : List (String × Int))
    (ver : Nat) (acc : List (String × Int × Nat))
    (h : lookupPush dp values = none) :
    lookupDP dp (values.foldl (fun a kv => setDP kv.1 kv.2 ver a) acc)
      = lookupDP dp acc := by
  induction values generalizing acc with
  | nil => rfl
  | cons kv rest ih =>
    have h1 : kv.1 ≠ dp := by
      intro he
      simp [lookupPush, he] at h
    have h2 : lookupPush dp rest = none := by
      simpa [lookupPush, h1] using h
    simp only [List.foldl_cons]
    rw [ih _ h2, lookupDP_setDP_ne dp kv.1 h1]

/-- State-level version of the preservation lemma. -/
lemma lookupDP_handleStatusValues (dp : String) (values : List (String × Int))
    (s : CacheState) (h : lookupPush dp values = none) :
    lookupDP dp (handleStatusValues values s).statusValues
      = lookupDP dp s.statusValues := by
  by_cases hv : values = []
  · simp [handleStatusValues, hv]
  · simp only [handleStatusValues, if_neg hv]
    exact lookup_foldl_setDP dp values _ _ h

/-- Run analysis for `queryStep`: a resolution with a value either happened at
a version above the baseline (returning the cache content at that point), or
came from the wait-failure fallback on an unchanged state. -/
lemma queryStep_spec (dp : String) (b : Nat) :
    ∀ (events : List StatusEvent) (s : CacheState), s.statusVersion = b →
    ∀ (v : Int) (sF : CacheState),
    queryStep dp b events s = (some (QueryOutcome.value v), sF) →
    (sF.statusVersion > b ∧
      (lookupDP dp sF.statusValues).map Prod.fst = some v) ∨
    (sF = s ∧ (lookupDP dp s.statusValues).map Prod.fst = some v) := by
  intro events
  induction events with
  | nil =>
    intro s hs v sF h
    simp [queryStep] at h
  | cons e rest ih =>
    intro s hs v sF h
    cases e with
    | push values =>
      simp only [queryStep] at h
      by_cases hv : values = []
      · subst hv
        rw [show handleStatusValues [] s = s from by simp [handleStatusValues]]
          at h
        rw [if_neg (by omega)] at h
        exact ih s hs v sF h
      · have hs1 := handleStatusValues_version values s hv
        rw [if_pos (by omega)] at h
        cases hl : lookupDP dp (handleStatusValues values s).statusValues with
        | none => rw [hl] at h; simp at h
        | some entry =>
          rw [hl] at h
          injection h with h1 h2
          injection h1 with h1
          injection h1 with h1
          left
          subst h2
          refine ⟨by omega, ?_⟩
          rw [hl]
          simp [h1]
    | waitFail =>
      simp only [queryStep] at h
      cases hl : lookupDP dp s.statusValues with
      | none => rw [hl] at h; simp at h
      | some entry =>
        rw [hl] at h
        injection h with h1 h2
        injection h1 with h1
        injection h1 with h1
        right
        refine ⟨h2.symm, ?_⟩
        simp [h1]

/-- Run analysis for `setStep` when no snapshot before the wait failure
carries the datapoint: the fallback fires with the entry cached at call time
(or the requested value when none is cached). -/
lemma setStep_no_dp (dp : String) (requested : Int) (b : Nat) :
    ∀ (es rest : List StatusEvent) (s : CacheState),
    (∀ values, StatusEvent.push values ∈ es → lookupPush dp values = none) →
    ∃ sF, setStep dp requested b (es ++ StatusEvent.waitFail :: rest) s =
      (some (QueryOutcome.value
        (((lookupDP dp s.statusValues).map Prod.fst).getD requested)), sF) := by
  intro es
  induction es with
  | nil =>
    intro rest s _
    refine ⟨s, ?_⟩
    simp only [List.nil_append, setStep]
    cases hl : lookupDP dp s.statusValues with
    | none => simp [hl]
    | some entry => simp [hl]
  | cons e es2 ih =>
    intro rest s hno
    cases e with
    | push values =>
      have hv : lookupPush dp values = none :=
        hno values (by simp)
      have hpres := lookupDP_handleStatusValues dp values s hv
      obtain ⟨sF, hF⟩ := ih rest (handleStatusValues values s)
        (fun w hw => hno w (by simp [hw]))
      refine ⟨sF, ?_⟩
      simp only [List.cons_append, setStep, hv, List.append_eq]
      rw [hF, hpres]
    | waitFail =>
      refine ⟨s, ?_⟩
      simp only [List.cons_append, setStep]
      cases hl : lookupDP dp s.statusValues with
      | none => simp [hl]
      | some entry => simp [hl]

/-- Delivering the teardown rejection to all-unsettled slots settles each one
exactly once. -/
lemma rejectSlots_all_unsettled (l : List Bool) (h : ∀ b ∈ l, b = false) :
    rejectSlots l = l.length := by
  induction l with
  | nil => rfl
  | cons x rest ih =>
    have hx : x = false := h x (by simp)
    have ih2 := ih (fun b hb => h b (by simp [hb]))
    subst hx
    rw [show rejectSlots (false :: rest) = 1 + rejectSlots rest from rfl, ih2,
      List.length_cons]
    omega

/-- Folding the per-datapoint rejection over all-unsettled registries counts
every registered waiter once. -/
lemma foldl_rejectSlots (ws : List (String × List Bool)) (a : Nat)
    (h : ∀ kv ∈ ws, ∀ b ∈ kv.2, b = false) :
    ws.foldl (fun acc kv => acc + rejectSlots kv.2) a
      = a + (ws.map fun kv => kv.2.length).sum := by
  induction ws generalizing a with
  | nil => simp
  | cons kv rest ih =>
    simp only [List.foldl_cons, List.map_cons, List.sum_cons]
    rw [rejectSlots_all_unsettled kv.2 (h kv (by simp)),
      ih _ (fun w hw b hb => h w (by simp [hw]) b hb)]
    omega

/-- C3 (amended): a `query(datapointId)` promise started while the version
counter equals the captured baseline resolves with a value either (a) after
the version counter has exceeded that baseline — the value then being the
cache content for the datapoint at resolution time — or (b) because the wait
failed (timeout or rejection), in which case it resolves with the value that
was already cached at call time (the deliberate cache fallback of the catch
block). -/
theorem query_fresh_or_fallback (dp : String) (s0 : CacheState)
    (events : List StatusEvent) (v : Int) (sF : CacheState)
    (h : queryRun dp s0 events = (some (QueryOutcome.value v), sF)) :
    (sF.statusVersion > s0.statusVersion ∧
      (lookupDP dp sF.statusValues).map Prod.fst = some v) ∨
    (sF = s0 ∧ (lookupDP dp s0.statusValues).map Prod.fst = some v) :=
  queryStep_spec dp s0.statusVersion events s0 rfl v sF h

/-- Witness for C3 (amended): with `power` cached as 5 at version 1, a wait
failure resolves the query with the call-time cached value on the unchanged
state. -/
theorem query_fresh_or_fallback_witness :
    ((⟨1, [("power", 5, 1)]⟩ : CacheState).statusVersion >
        (⟨1, [("power", 5, 1)]⟩ : CacheState).statusVersion ∧
      (lookupDP "power" (⟨1, [("power", 5, 1)]⟩ :
        CacheState).statusValues).map Prod.fst = some 5) ∨
    ((⟨1, [("power", 5, 1)]⟩ : CacheState) = ⟨1, [("power", 5, 1)]⟩ ∧
      (lookupDP "power" (⟨1, [("power", 5, 1)]⟩ :
        CacheState).statusValues).map Prod.fst = some 5) :=
  query_fresh_or_fallback "power" ⟨1, [("power", 5, 1)]⟩ [StatusEvent.waitFail]
    5 ⟨1, [("power", 5, 1)]⟩ (by decide)

/-- Counterexample to C3 as stated: with `power` cached as value 5 at version
1 and the version counter at the baseline 1, a wait failure (timeout) makes
`query` resolve with the value 5 that was already cached at call time, while
the version counter never exceeded the baseline — refuting both that the
promise resolves only after the version exceeds the baseline and that it
never resolves with a value cached at call time. -/
theorem query_stale_fallback_counterexample :
    ¬ ((queryRun "power" ⟨1, [("power", 5, 1)]⟩ [StatusEvent.waitFail]).1
        = some (QueryOutcome.value 5) →
      (queryRun "power" ⟨1, [("power", 5, 1)]⟩
        [StatusEvent.waitFail]).2.statusVersion > 1) := by
  decide

/-- C5: when the send succeeds but the wait for the datapoint version to
advance past the pre-send baseline fails — no accepted snapshot carrying the
datapoint arrives before the failure — `set` resolves (it does not reject)
with the last cached value for the datapoint when one is cached, and
otherwise with the originally requested value (optimistic echo). -/
theorem set_wait_failure_fallback (dp : String) (requested : Int)
    (s0 : CacheState) (es rest : List StatusEvent)
    (hnodp : ∀ values, StatusEvent.push values ∈ es →
      lookupPush dp values = none) :
    ∃ sF, setRun dp requested s0 (es ++ StatusEvent.waitFail :: rest) =
      (some (QueryOutcome.value
        (((lookupDP dp s0.statusValues).map Prod.fst).getD requested)), sF) :=
  setStep_no_dp dp requested s0.statusVersion es rest s0 hnodp

/-- Witness for C5: `set('targetTemperature', 24)` on an empty cache whose
wait times out resolves with the optimistic echo 24. -/
theorem set_wait_failure_fallback_witness :
    ∃ sF, setRun "targetTemperature" 24 ⟨0, []⟩ ([] ++
      StatusEvent.waitFail :: []) =
      (some (QueryOutcome.value
        (((lookupDP "targetTemperature" (⟨0, []⟩ :
          CacheState).statusValues).map Prod.fst).getD 24)), sF) :=
  set_wait_failure_fallback "targetTemperature" 24 ⟨0, []⟩ [] []
    (fun values hv => by simp at hv)

/-- C8: the teardown path shared by `disconnect()` and the socket
`error`/`close` handlers rejects every pending request and every registered
status waiter exactly once — each unsettled slot receives exactly one
rejection and already-settled slots receive none, which is what the
settled-guard enforces — and leaves the pending table and both waiter
registries empty. -/
theorem teardown_rejects_each_once_and_clears (s : TeardownState)
    (hp : ∀ b ∈ s.pending, b = false)
    (hw : ∀ kv ∈ s.statusWaiters, ∀ b ∈ kv.2, b = false)
    (hu : ∀ b ∈ s.statusUpdateWaiters, b = false) :
    (disconnectModel s).1.pending = [] ∧
    (disconnectModel s).1.statusWaiters = [] ∧
    (disconnectModel s).1.statusUpdateWaiters = [] ∧
    (disconnectModel s).2 = s.pending.length +
      ((s.statusWaiters.map fun kv => kv.2.length).sum +
        s.statusUpdateWaiters.length) := by
  unfold disconnectModel rejectAllPending rejectAllStatusWaiters
  simp only []
  refine ⟨by trivial, by trivial, by trivial, ?_⟩
  rw [rejectSlots_all_unsettled s.pending hp,
    rejectSlots_all_unsettled s.statusUpdateWaiters hu,
    foldl_rejectSlots s.statusWaiters 0 hw]
  omega

/-- Witness for C8 on a state with two pending requests, one registered
`power` waiter and one status-update waiter, all unsettled. -/
theorem teardown_rejects_each_once_and_clears_witness :
    (disconnectModel ⟨[false, false], [("power", [false])], [false]⟩).1.pending
      = [] ∧
    (disconnectModel ⟨[false, false], [("power", [false])],
      [false]⟩).1.statusWaiters = [] ∧
    (disconnectModel ⟨[false, false], [("power", [false])],
      [false]⟩).1.statusUpdateWaiters = [] ∧
    (disconnectModel ⟨[false, false], [("power", [false])], [false]⟩).2
      = ([false, false] : List Bool).length +
        ((([("power", [false])] : List (String × List Bool)).map
          fun kv => kv.2.length).sum + ([false] : List Bool).length) :=
  teardown_rejects_each_once_and_clears
    ⟨[false, false], [("power", [false])], [false]⟩
    (by decide) (by decide) (by decide)

/-- Fidelity of the `Number()` model at the converters: decimal-point,
exponent and hex strings are accepted by the string branches exactly as the
source accepts them through `Number()` (`"2.5"` is a raw fan value 5/2,
`"1e1"` a raw fan value 10, and `"0x2"` is mode 2, i.e. `cool`). -/
lemma convertFanSpeedNumeric_half_raw :
    convertFanSpeedNumeric ((5 : Rat) / 2) = some (FanSetValue.raw (5 / 2)) := by
  unfold convertFanSpeedNumeric
  rw [if_neg (by
    intro h
    have hd := h.2.2
    rw [show ((5 : Rat) / 2).den = 2 from by norm_num [Rat.den]] at hd
    exact absurd hd (by norm_num))]
  simp only []
  rw [if_pos (by constructor <;> norm_num)]

lemma convertFanSpeedNumeric_ten_raw :
    convertFanSpeedNumeric (10 : Rat) = some (FanSetValue.raw 10) := by
  unfold convertFanSpeedNumeric
  rw [if_neg (by
    intro h
    exact absurd h.2.1 (by norm_num))]
  simp only []
  rw [if_pos (by constructor <;> norm_num)]

lemma converters_accept_numeric_strings :
    convertFanSpeedValue (JSValue.str "2.5")
      = Except.ok (some (FanSetValue.raw (5 / 2))) ∧
    convertFanSpeedValue (JSValue.str "1e1")
      = Except.ok (some (FanSetValue.raw 10)) ∧
    convertModeValue (JSValue.str "0x2") = Except.ok (some "cool") := by
  refine ⟨?_, ?_, rfl⟩
  · have hparse : jsNumber (normalizeString "2.5") = some ((5 : Rat) / 2) := by
      rw [show jsNumber (normalizeString "2.5") = some (((2 : Nat) : Rat) +
        ((5 : Nat) : Rat) / (10 : Rat) ^ (1 : Nat)) from rfl]
      exact congrArg some (by norm_num)
    simp only [convertFanSpeedValue]
    rw [if_neg (by decide),
      show FAN_SPEED_ALIASES (normalizeString "2.5") = none from rfl]
    simp only []
    rw [hparse]
    simp only []
    rw [convertFanSpeedNumeric_half_raw]
  · have hparse : jsNumber (normalizeString "1e1") = some (10 : Rat) := by
      rw [show jsNumber (normalizeString "1e1")
        = some (applyExp ((1 : Nat) : Rat) (Int.ofNat 1)) from rfl]
      refine congrArg some ?_
      unfold applyExp
      rw [if_pos (by decide)]
      norm_num
    simp only [convertFanSpeedValue]
    rw [if_neg (by decide),
      show FAN_SPEED_ALIASES (normalizeString "1e1") = none from rfl]
    simp only []
    rw [hparse]
    simp only []
    rw [convertFanSpeedNumeric_ten_raw]

/-- Counterexample to C7 as stated: the claim allows an unrecognized
swing-mode string to default to `off`, but `_convertSwingValue` throws on the
unrecognized non-empty string "diagonal" instead of defaulting — only the
empty string defaults to `off`. -/
theorem swing_unrecognized_input_throws :
    convertSwingValue (JSValue.str "diagonal")
      = Except.error "Unsupported swing mode value" ∧
    convertSwingValue (JSValue.str "diagonal") ≠ Except.ok ⟨false, false⟩ :=
  ⟨rfl, fun h => Except.noConfusion h⟩

/-- C7 (amended): every declared mode, fan-speed and swing name round-trips
through its numeric code back to the same name; converting an unrecognized
non-empty symbolic input raises an error in all three categories (swing-mode
included); an empty swing-mode string defaults to `off`, while empty mode and
fan-speed strings yield no value (`undefined`) rather than an error. -/
theorem enum_roundtrip_and_errors :
    (∀ name ∈ (["auto", "cool", "dry", "heat", "fanonly", "customdry"] :
        List String),
      (modeNameToNumeric name).bind modeNumberToName = some name) ∧
    (∀ name ∈ (["auto", "silent", "low", "medium", "high", "fixed"] :
        List String),
      (fanSpeedNameToNumeric name).bind fanSpeedNumericToName = some name) ∧
    (∀ name ∈ (["off", "vertical", "horizontal", "both"] : List String),
      (SWING_NAME_TO_VALUE name).bind SWING_VALUE_TO_NAME = some name) ∧
    (∀ s, normalizeString s ≠ "" → MODE_ALIASES (normalizeString s) = none →
      (jsNumber (normalizeString s)).bind (ratKeyLookup MODE_VALUE_TO_NAME)
        = none →
      convertModeValue (JSValue.str s) =
        Except.error "Unsupported mode value") ∧
    (∀ s, normalizeString s ≠ "" →
      FAN_SPEED_ALIASES (normalizeString s) = none →
      jsNumber (normalizeString s) = none →
      convertFanSpeedValue (JSValue.str s) =
        Except.error "Unsupported fan speed value") ∧
    (∀ s, normalizeString s ≠ "" → SWING_ALIASES (normalizeString s) = none →
      convertSwingValue (JSValue.str s) =
        Except.error "Unsupported swing mode value") ∧
    convertSwingValue (JSValue.str "") = Except.ok ⟨false, false⟩ ∧
    convertModeValue (JSValue.str "") = Except.ok none ∧
    convertFanSpeedValue (JSValue.str "") = Except.ok none := by
  refine ⟨?_, ?_, ?_, ?_, ?_, ?_, ?_, ?_, ?_⟩
  · intro name hname
    fin_cases hname <;> decide
  · intro name hname
    fin_cases hname <;> decide
  · intro name hname
    fin_cases hname <;> decide
  · intro s hs1 hs2 hs3
    simp only [convertModeValue]
    rw [if_neg hs1, hs2, hs3]
  · intro s hs1 hs2 hs3
    simp only [convertFanSpeedValue]
    rw [if_neg hs1, hs2, hs3]
  · intro s hs1 hs2
    simp only [convertSwingValue]
    rw [if_neg hs1, hs2]
  · rfl
  · rfl
  · rfl

/-- Witness for C7 (amended) at the unrecognized mode string "purple". -/
theorem enum_roundtrip_and_errors_witness :
    convertModeValue (JSValue.str "purple") =
      Except.error "Unsupported mode value" :=
  enum_roundtrip_and_errors.2.2.2.1 "purple" (by decide) (by decide)
    (by decide)

end MideaSerialBridge
